import Mathlib

/-!
Shallow embedding of `cargo-insta`'s CLI orchestration layer
(`src/cargo-insta/src/cli.rs`): the triage engine (`process_snapshots`),
the location resolver (`handle_target_args`), the `INSTA_UPDATE` policy
reconciliation, the test-runner command-line construction, the
unreferenced-snapshot collector, and the `test_run` orchestrator.

Filesystem effects are modelled by explicit data: an abstract `FS`
predicate for the resolver, per-container `commitOk` flags for artifact
storage, and a `TestWorld` record carrying the child process exit status,
the reference file contents and the files visited by the deletion walk.
Interactive keystrokes are modelled by a decision oracle indexed by the
running prompt counter.
-/

namespace Insta

/-- The three triage decisions (`Operation` in `cargo.rs`, consumed by `cli.rs`). -/
inductive Operation where
  | Accept
  | Reject
  | Skip
deriving DecidableEq, Repr

/-- One pending snapshot entry: an optional inline line number and an opaque
human-readable summary (the `summary()` string pushed into the result buckets). -/
structure SnapshotRef where
  line : Option Nat
  summary : String
deriving DecidableEq, Repr

/-- A snapshot container: its target file, its entries in appearance order, and
whether the external storage accepts `commit()` (models the fallible call at the
end of the per-container loop). -/
structure SnapshotContainer where
  target_file : String
  entries : List SnapshotRef
  commitOk : Bool
deriving DecidableEq, Repr

/-- Accumulated state of one triage pass: the three summary buckets, the list of
entries that were interactively prompted, the target files whose containers
committed, the running prompt counter `num`, and whether a commit failure
aborted the pass (the `?` on `snapshot_container.commit()`). -/
structure TriageState where
  accepted : List String
  rejected : List String
  skipped : List String
  prompted : List String
  committed : List String
  num : Nat
  aborted : Bool
deriving DecidableEq, Repr

def initTriageState : TriageState :=
  { accepted := [], rejected := [], skipped := [], prompted := [],
    committed := [], num := 0, aborted := false }

/-- Identity key of an entry: `"<file>:<line>"` for inline entries,
`"<file>"` for external ones (the `key` built in `process_snapshots`). -/
def entryKey (targetFile : String) (r : SnapshotRef) : String :=
  match r.line with
  | some l => targetFile ++ ":" ++ toString l
  | none => targetFile

/-- Whether an entry passes the `--snapshot` filter: no filter means every
entry passes; otherwise the identity key must be contained in the filter. -/
def filterPasses (filter : Option (List String)) (key : String) : Bool :=
  match filter with
  | some f => f.contains key
  | none => true

/-- One iteration of the inner entry loop of `process_snapshots`: a filtered-out
entry is recorded as skipped without prompting; otherwise the counter is
incremented and the operation comes from the bulk policy or, interactively,
from the oracle (recording the prompt). -/
def stepEntry (filter : Option (List String)) (bulk : Option Operation)
    (oracle : Nat → Operation) (targetFile : String)
    (st : TriageState) (r : SnapshotRef) : TriageState :=
  if filterPasses filter (entryKey targetFile r) then
    let n := st.num + 1
    let opv : Operation :=
      match bulk with
      | some o => o
      | none => oracle n
    let st1 : TriageState :=
      match bulk with
      | some _ => { st with num := n }
      | none => { st with num := n, prompted := st.prompted ++ [r.summary] }
    match opv with
    | Operation.Accept => { st1 with accepted := st1.accepted ++ [r.summary] }
    | Operation.Reject => { st1 with rejected := st1.rejected ++ [r.summary] }
    | Operation.Skip => { st1 with skipped := st1.skipped ++ [r.summary] }
  else
    { st with skipped := st.skipped ++ [r.summary] }

/-- Process all entries of one container (the inner `for` loop). -/
def runContainer (filter : Option (List String)) (bulk : Option Operation)
    (oracle : Nat → Operation) (st : TriageState) (c : SnapshotContainer) :
    TriageState :=
  c.entries.foldl (stepEntry filter bulk oracle c.target_file) st

/-- The outer container loop: after a container's entries, `commit()` is
called; on failure the `?` aborts the pass, so the remaining containers are
never processed. -/
def runContainers (filter : Option (List String)) (bulk : Option Operation)
    (oracle : Nat → Operation) :
    List SnapshotContainer → TriageState → TriageState
  | [], st => st
  | c :: rest, st =>
    let st1 := runContainer filter bulk oracle st c
    if c.commitOk then
      runContainers filter bulk oracle rest
        { st1 with committed := st1.committed ++ [c.target_file] }
    else
      { st1 with aborted := true }

/-- Total pending-entry count across all containers. -/
def snapshotCount (cs : List SnapshotContainer) : Nat :=
  (cs.map (fun c => c.entries.length)).foldl (· + ·) 0

/-- Result of a full `process_snapshots` call: the final triage state plus
whether the "no snapshots to review" message was printed. -/
structure ProcessResult where
  state : TriageState
  printedNoSnapshots : Bool
deriving DecidableEq, Repr

/-- `process_snapshots`: with zero pending entries it prints the
"no snapshots to review" message (unless quiet) and returns successfully
without touching anything; otherwise it runs the container loop. -/
def process_snapshots (quiet : Bool) (filter : Option (List String))
    (bulk : Option Operation) (oracle : Nat → Operation)
    (cs : List SnapshotContainer) : ProcessResult :=
  if snapshotCount cs = 0 then
    { state := initTriageState, printedNoSnapshots := !quiet }
  else
    { state := runContainers filter bulk oracle cs initTriageState,
      printedNoSnapshots := false }

/-- The scoping flags shared by all commands (`TargetArgs`). Paths are
modelled as plain strings. -/
structure TargetArgs where
  manifest_path : Option String
  workspace_root : Option String
  extensions : List String
  all : Bool
  no_ignore : Bool
deriving DecidableEq, Repr

/-- Abstract filesystem view used by the resolver: which paths are files. -/
structure FS where
  isFile : String → Bool

/-- The manifest path assumed to live at the top level of a directory
(`root.push("Cargo.toml")`). -/
def cargoManifest (root : String) : String := root ++ "/Cargo.toml"

/-- Outcome of `handle_target_args`: a configuration-conflict error, a
workspace-scoped location (no package enumeration), or a package-scoped
location deferring to the ambient metadata with an optional manifest path. -/
inductive ResolveOutcome where
  | configConflict
  | workspaceScoped (root : String)
  | packageScoped (manifest : Option String)
deriving DecidableEq, Repr

/-- The extension list with its default (`exts.push("snap")` when empty). -/
def resolvedExts (t : TargetArgs) : List String :=
  if t.extensions.isEmpty then ["snap"] else t.extensions

/-- `handle_target_args`' match on `(workspace_root, manifest_path)`: both
given is an immediate error; a lone workspace root that directly contains a
manifest file is reinterpreted as a manifest path; otherwise a lone root is
workspace-scoped and the remaining cases are package-scoped. -/
def handle_target_args (fs : FS) (t : TargetArgs) : ResolveOutcome :=
  match t.workspace_root, t.manifest_path with
  | some _, some _ => ResolveOutcome.configConflict
  | none, some manifest => ResolveOutcome.packageScoped (some manifest)
  | some root, none =>
    if fs.isFile (cargoManifest root) then
      ResolveOutcome.packageScoped (some (cargoManifest root))
    else
      ResolveOutcome.workspaceScoped root
  | none, none => ResolveOutcome.packageScoped none

/-- The `test` subcommand's flags (`TestCommand`). -/
structure TestCommand where
  target_args : TargetArgs
  package : Option String
  no_force_pass : Bool
  fail_fast : Bool
  features : Option String
  jobs : Option Nat
  release : Bool
  all_features : Bool
  no_default_features : Bool
  review : Bool
  accept : Bool
  accept_unseen : Bool
  keep_pending : Bool
  force_update_snapshots : Bool
  delete_unreferenced_snapshots : Bool
  cargo_options : List String
deriving DecidableEq, Repr

/-- The `INSTA_UPDATE` reconciliation at the top of `test_run`: `auto`, `new`,
unset, empty and `no` leave the flags alone; `always` forces `--accept` when
none of accept, accept-unseen or review was requested; `unseen` forces review
with accept-unseen semantics when accept was not requested; anything else is a
fatal configuration error. -/
def reconcileUpdate (env : Option String) (cmd : TestCommand) :
    Except String TestCommand :=
  match env with
  | none => Except.ok cmd
  | some s =>
    if s = "auto" then Except.ok cmd
    else if s = "new" then Except.ok cmd
    else if s = "always" then
      if !cmd.accept && !cmd.accept_unseen && !cmd.review then
        Except.ok { cmd with review := false, accept := true }
      else Except.ok cmd
    else if s = "unseen" then
      if !cmd.accept then
        Except.ok { cmd with accept_unseen := true, review := true, accept := false }
      else Except.ok cmd
    else if s = "" then Except.ok cmd
    else if s = "no" then Except.ok cmd
    else Except.error "invalid value for INSTA_UPDATE"

/-- The argument list built for the child `cargo test` process, in the order
the source pushes them: flags, `--color <color>`, the user passthrough
`cargo_options`, then `--` and `-q`. -/
def buildTestArgs (cmd : TestCommand) (color : String) : List String :=
  ["test"]
  ++ (if cmd.target_args.all then ["--all"] else [])
  ++ (match cmd.package with
      | some p => ["--package", p]
      | none => [])
  ++ (match cmd.target_args.manifest_path with
      | some m => ["--manifest-path", m]
      | none => [])
  ++ (if !cmd.fail_fast then ["--no-fail-fast"] else [])
  ++ (if cmd.release then ["--release"] else [])
  ++ (match cmd.jobs with
      | some n => ["--jobs=" ++ toString n]
      | none => [])
  ++ (match cmd.features with
      | some f => ["--features", f]
      | none => [])
  ++ (if cmd.all_features then ["--all-features"] else [])
  ++ (if cmd.no_default_features then ["--no-default-features"] else [])
  ++ ["--color", color]
  ++ cmd.cargo_options
  ++ ["--", "-q"]

/-- The fixed-flag portion of the constructed command line: everything pushed
before `cmd.cargo_options` (the pushes of cli.rs up to and including
`--color`). -/
def buildTestArgsPre (cmd : TestCommand) (color : String) : List String :=
  ["test"]
  ++ (if cmd.target_args.all then ["--all"] else [])
  ++ (match cmd.package with
      | some p => ["--package", p]
      | none => [])
  ++ (match cmd.target_args.manifest_path with
      | some m => ["--manifest-path", m]
      | none => [])
  ++ (if !cmd.fail_fast then ["--no-fail-fast"] else [])
  ++ (if cmd.release then ["--release"] else [])
  ++ (match cmd.jobs with
      | some n => ["--jobs=" ++ toString n]
      | none => [])
  ++ (match cmd.features with
      | some f => ["--features", f]
      | none => [])
  ++ (if cmd.all_features then ["--all-features"] else [])
  ++ (if cmd.no_default_features then ["--no-default-features"] else [])
  ++ ["--color", color]

/-- Model of Rust `str::ends_with`, stated on the character list so that it
evaluates by kernel reduction. -/
def strEndsWith (s suf : String) : Bool := suf.data.isSuffixOf s.data

/-- A file reached by the deletion walk: its file name and the result of
canonicalizing its path (`fs::canonicalize` may fail). -/
structure WalkFile where
  name : String
  canonical : Option String
deriving DecidableEq, Repr

/-- The per-file deletion decision in `test_run`'s collection loop: a file is
removed exactly when its name ends with the literal `".snap"` and its
canonicalized path is absent from the referenced set (files whose
canonicalization fails are left alone). -/
def collectorDeletes (referenced : List String) (f : WalkFile) : Bool :=
  strEndsWith f.name ".snap" &&
    (match f.canonical with
     | some p => !(referenced.contains p)
     | none => false)

/-- Modelled from the spec's wording for comparison: deletion keyed on the
*configured* snapshot extensions rather than the literal `".snap"`. -/
def claimDeletes (exts : List String) (referenced : List String)
    (f : WalkFile) : Bool :=
  exts.any (fun e => strEndsWith f.name ("." ++ e)) &&
    (match f.canonical with
     | some p => !(referenced.contains p)
     | none => false)

/-- A directory entry as seen by `make_deletion_walker`'s filter closure. -/
structure DirEntry where
  isDir : Bool
  fileName : Option String
  canonical : Option String
  canonicalParent : String
  hasManifest : Bool
deriving DecidableEq, Repr

/-- The `filter_entry` closure of `make_deletion_walker`: non-directories
always pass; a directory named `target` whose canonicalized parent is a known
root is skipped, as is a directory outside the known roots that contains its
own manifest file. -/
def deletionFilter (roots : List String) (e : DirEntry) : Bool :=
  if !e.isDir then true
  else
    match e.canonical with
    | none => true
    | some c =>
      if e.fileName == some "target" && roots.contains e.canonicalParent then
        false
      else if !(roots.contains c) && e.hasManifest then
        false
      else
        true

/-- Parameters and result of one recorded `process_snapshots` call made by the
orchestrator. -/
structure PassRecord where
  quiet : Bool
  filter : Option (List String)
  bulk : Option Operation
  result : ProcessResult
deriving DecidableEq, Repr

/-- The world `test_run` interacts with: the `INSTA_UPDATE` environment value,
the containers seen by the pre-run reject pass, the child process exit status,
the canonicalized referenced paths read back from the reference-tracking file
(`none` when the file cannot be read), the files visited by the deletion walk,
whether re-resolving the target args for the collection succeeds, and the
containers seen after the run. -/
structure TestWorld where
  instaUpdate : Option String
  preContainers : List SnapshotContainer
  childExit : Nat
  refFile : Option (List String)
  walkFiles : List WalkFile
  resolveOk : Bool
  postContainers : List SnapshotContainer

/-- Observable trace of one `test_run` invocation. -/
structure RunTrace where
  configError : Bool
  preRunPass : Option PassRecord
  triageAborted : Bool
  spawned : Bool
  warnedSkipReview : Bool
  warnedNotAccepted : Bool
  quietExitCode : Option Nat
  panicked : Bool
  gcRan : Bool
  deletedFiles : List WalkFile
  postPass : Option PassRecord
  reportedPending : Option Nat
deriving DecidableEq, Repr

def emptyTrace : RunTrace :=
  { configError := false, preRunPass := none, triageAborted := false,
    spawned := false, warnedSkipReview := false, warnedNotAccepted := false,
    quietExitCode := none, panicked := false, gcRan := false,
    deletedFiles := [], postPass := none, reportedPending := none }

/-- The pre-run cleanup pass: unless `keep_pending`, a quiet, unfiltered
bulk-Reject `process_snapshots` over the same target scope. -/
def preRunRecord (cmd : TestCommand) (w : TestWorld)
    (oracle : Nat → Operation) : Option PassRecord :=
  if cmd.keep_pending then none
  else
    some { quiet := true, filter := none, bulk := some Operation.Reject,
           result := process_snapshots true none (some Operation.Reject)
                       oracle w.preContainers }

/-- Whether the pre-run pass aborted (its `?` would propagate the error). -/
def preRunAborted (cmd : TestCommand) (w : TestWorld)
    (oracle : Nat → Operation) : Bool :=
  match preRunRecord cmd w oracle with
  | some rec => rec.result.state.aborted
  | none => false

/-- The tail of `test_run` after a successful child run and collection: a
non-quiet review pass (bulk Accept when `--accept`, interactive otherwise)
when review or accept was requested; otherwise only the pending count is
recomputed and reported. -/
def finishRun (cmd : TestCommand) (w : TestWorld) (oracle : Nat → Operation)
    (preRun : Option PassRecord) (gc : Bool) (deleted : List WalkFile) :
    RunTrace :=
  if cmd.review || cmd.accept then
    let bulk : Option Operation :=
      if cmd.accept then some Operation.Accept else none
    { emptyTrace with
      preRunPass := preRun, spawned := true, gcRan := gc,
      deletedFiles := deleted,
      postPass := some { quiet := false, filter := none, bulk := bulk,
                         result := process_snapshots false none bulk oracle
                                     w.postContainers } }
  else
    { emptyTrace with
      preRunPass := preRun, spawned := true, gcRan := gc,
      deletedFiles := deleted,
      reportedPending := some (snapshotCount w.postContainers) }

/-- The body of `test_run` after the `INSTA_UPDATE` reconciliation succeeded
with flags `cmd`: run the pre-run reject pass unless `keep_pending`, spawn the
child; on a non-zero exit warn (depending on review/accept) and fail with
`QuietExit(1)`; on success optionally read the reference file (unwrap: a
missing file panics) and delete unreferenced snapshots, then run the post-run
decision pass. -/
def afterReconcile (cmd : TestCommand) (w : TestWorld)
    (oracle : Nat → Operation) : RunTrace :=
    if preRunAborted cmd w oracle then
      { emptyTrace with
        preRunPass := preRunRecord cmd w oracle,
        triageAborted := true }
    else if w.childExit ≠ 0 then
      { emptyTrace with
        preRunPass := preRunRecord cmd w oracle, spawned := true,
        warnedSkipReview := cmd.review,
        warnedNotAccepted := cmd.accept && !cmd.review,
        quietExitCode := some 1 }
    else if cmd.delete_unreferenced_snapshots then
      match w.refFile with
      | none =>
        { emptyTrace with
          preRunPass := preRunRecord cmd w oracle, spawned := true,
          panicked := true }
      | some referenced =>
        finishRun cmd w oracle (preRunRecord cmd w oracle) true
          (if w.resolveOk then
            w.walkFiles.filter (collectorDeletes referenced)
          else [])
    else
      finishRun cmd w oracle (preRunRecord cmd w oracle) false []

/-- `test_run`: the `INSTA_UPDATE` reconciliation followed by the run body;
an unrecognized policy value is a fatal configuration error before anything
else happens. -/
def test_run (cmd0 : TestCommand) (w : TestWorld)
    (oracle : Nat → Operation) : RunTrace :=
  match reconcileUpdate w.instaUpdate cmd0 with
  | Except.error _ => { emptyTrace with configError := true }
  | Except.ok cmd => afterReconcile cmd w oracle

/-! Concrete inputs used by counterexamples and witnesses. -/

def defaultTargetArgs : TargetArgs :=
  { manifest_path := none, workspace_root := none, extensions := [],
    all := false, no_ignore := false }

def defaultTestCommand : TestCommand :=
  { target_args := defaultTargetArgs, package := none, no_force_pass := false,
    fail_fast := false, features := none, jobs := none, release := false,
    all_features := false, no_default_features := false, review := false,
    accept := false, accept_unseen := false, keep_pending := false,
    force_update_snapshots := false, delete_unreferenced_snapshots := false,
    cargo_options := [] }

def skipOracle : Nat → Operation := fun _ => Operation.Skip

def emptyWorld : TestWorld :=
  { instaUpdate := none, preContainers := [], childExit := 0, refFile := none,
    walkFiles := [], resolveOk := true, postContainers := [] }

def exFS : FS := { isFile := fun p => p == "root/Cargo.toml" }

def exBothArgs : TargetArgs :=
  { defaultTargetArgs with
    manifest_path := some "elsewhere/Cargo.toml",
    workspace_root := some "root" }

def exRootArgs : TargetArgs :=
  { defaultTargetArgs with workspace_root := some "root" }

def exWalkFile : WalkFile :=
  { name := "x.newsnap", canonical := some "/ws/x.newsnap" }

def refWalkFile : WalkFile := { name := "a.snap", canonical := some "/ws/a.snap" }

def exDirEntry : DirEntry :=
  { isDir := true, fileName := some "target", canonical := some "/ws/target",
    canonicalParent := "/ws", hasManifest := false }

def cA : SnapshotContainer :=
  { target_file := "a", entries := [⟨none, "sa"⟩], commitOk := true }

def cB : SnapshotContainer :=
  { target_file := "b", entries := [⟨none, "sb"⟩], commitOk := false }

def cC : SnapshotContainer :=
  { target_file := "c", entries := [⟨none, "sc"⟩], commitOk := true }

def exCargoCmd : TestCommand :=
  { defaultTestCommand with cargo_options := ["--test-threads=1"] }

def exCmdC1 : TestCommand := { defaultTestCommand with review := true }

def exWorldC1 : TestWorld := { emptyWorld with childExit := 3 }

def exCmdC10 : TestCommand :=
  { defaultTestCommand with delete_unreferenced_snapshots := true }

end Insta

namespace Insta

/-- C5: the `INSTA_UPDATE` reconciliation is exhaustive over input strings:
`auto`, `new`, unset, empty and `no` cause no override; `always` forces bulk
Accept exactly when none of accept, accept-unseen or review was requested;
`unseen` forces review with accept-unseen semantics exactly when accept was
not requested; every other value is a fatal configuration error. -/
theorem C5_policy_reconciliation (cmd : TestCommand) :
    reconcileUpdate none cmd = Except.ok cmd ∧
    reconcileUpdate (some "auto") cmd = Except.ok cmd ∧
    reconcileUpdate (some "new") cmd = Except.ok cmd ∧
    reconcileUpdate (some "") cmd = Except.ok cmd ∧
    reconcileUpdate (some "no") cmd = Except.ok cmd ∧
    (cmd.accept = false → cmd.accept_unseen = false → cmd.review = false →
      reconcileUpdate (some "always") cmd =
        Except.ok { cmd with review := false, accept := true }) ∧
    (cmd.accept = true ∨ cmd.accept_unseen = true ∨ cmd.review = true →
      reconcileUpdate (some "always") cmd = Except.ok cmd) ∧
    (cmd.accept = false →
      reconcileUpdate (some "unseen") cmd =
        Except.ok
          { cmd with accept_unseen := true, review := true, accept := false }) ∧
    (cmd.accept = true → reconcileUpdate (some "unseen") cmd = Except.ok cmd) ∧
    (∀ s : String, s ≠ "auto" → s ≠ "new" → s ≠ "always" → s ≠ "unseen" →
      s ≠ "" → s ≠ "no" →
      reconcileUpdate (some s) cmd =
        Except.error "invalid value for INSTA_UPDATE") := by
  refine ⟨rfl, rfl, rfl, rfl, rfl, ?_, ?_, ?_, ?_, ?_⟩
  · intro h1 h2 h3
    simp [reconcileUpdate, h1, h2, h3]
  · intro h
    rcases h with h | h | h <;> simp [reconcileUpdate, h]
  · intro h
    simp [reconcileUpdate, h]
  · intro h
    simp [reconcileUpdate, h]
  · intro s h1 h2 h3 h4 h5 h6
    simp [reconcileUpdate, h1, h2, h3, h4, h5, h6]

/-- C5 witness: `INSTA_UPDATE=always` with no accept/review/accept-unseen flag
is equivalent to `--accept` (spec Scenario C). -/
theorem C5_policy_reconciliation_witness :
    reconcileUpdate (some "always") defaultTestCommand =
      Except.ok { defaultTestCommand with review := false, accept := true } :=
  (C5_policy_reconciliation defaultTestCommand).2.2.2.2.2.1 rfl rfl rfl

/-- C7: in a triage pass, an entry passes the filter iff the filter is absent
or its identity key (`"<file>"` external, `"<file>:<line>"` inline) is in it;
a filtered-out entry is recorded as Skip (and nothing else changes) regardless
of any bulk policy, while a passing entry is prompted (interactive) or given
the bulk operation, incrementing the prompt counter. -/
theorem C7_filtering (filter : Option (List String)) (bulk : Option Operation)
    (oracle : Nat → Operation) (tf : String) (st : TriageState)
    (r : SnapshotRef) :
    (filter = none → filterPasses filter (entryKey tf r) = true) ∧
    (∀ f, filter = some f →
      filterPasses filter (entryKey tf r) = f.contains (entryKey tf r)) ∧
    (filterPasses filter (entryKey tf r) = false →
      stepEntry filter bulk oracle tf st r =
        { st with skipped := st.skipped ++ [r.summary] }) ∧
    (filterPasses filter (entryKey tf r) = true → bulk = none →
      (stepEntry filter bulk oracle tf st r).num = st.num + 1 ∧
      (stepEntry filter bulk oracle tf st r).prompted =
        st.prompted ++ [r.summary]) ∧
    (filterPasses filter (entryKey tf r) = true → ∀ o, bulk = some o →
      (stepEntry filter bulk oracle tf st r).num = st.num + 1 ∧
      (stepEntry filter bulk oracle tf st r).prompted = st.prompted) := by
  refine ⟨?_, ?_, ?_, ?_, ?_⟩
  · intro h; subst h; rfl
  · intro f h; subst h; rfl
  · intro h
    simp [stepEntry, h]
  · intro h hb
    subst hb
    cases ho : oracle (st.num + 1) <;> simp [stepEntry, h, ho]
  · intro h o hb
    subst hb
    cases o <;> simp [stepEntry, h]

/-- C7 witness: a concrete external entry (no line number, key `"lib.rs"`)
whose key is missing from the filter is recorded as Skip even under a bulk
Accept policy. -/
theorem C7_filtering_witness :
    filterPasses (some ["other.rs"]) (entryKey "lib.rs" ⟨none, "s1"⟩) = false ∧
    stepEntry (some ["other.rs"]) (some Operation.Accept) skipOracle "lib.rs"
        initTriageState ⟨none, "s1"⟩ =
      { initTriageState with skipped := [] ++ ["s1"] } :=
  ⟨by decide,
   (C7_filtering (some ["other.rs"]) (some Operation.Accept) skipOracle
      "lib.rs" initTriageState ⟨none, "s1"⟩).2.2.1 (by decide)⟩

/-- C9: with zero pending entries across all containers, a triage pass prints
the "no snapshots to review" message exactly when not quiet, prompts for
nothing, commits nothing, records nothing and succeeds (no abort). -/
theorem C9_no_pending (quiet : Bool) (filter : Option (List String))
    (bulk : Option Operation) (oracle : Nat → Operation)
    (cs : List SnapshotContainer) (h : snapshotCount cs = 0) :
    process_snapshots quiet filter bulk oracle cs =
      { state := initTriageState, printedNoSnapshots := !quiet } ∧
    (process_snapshots quiet filter bulk oracle cs).state.prompted = [] ∧
    (process_snapshots quiet filter bulk oracle cs).state.committed = [] ∧
    (process_snapshots quiet filter bulk oracle cs).state.accepted = [] ∧
    (process_snapshots quiet filter bulk oracle cs).state.rejected = [] ∧
    (process_snapshots quiet filter bulk oracle cs).state.aborted = false := by
  have hmain : process_snapshots quiet filter bulk oracle cs =
      { state := initTriageState, printedNoSnapshots := !quiet } := by
    simp [process_snapshots, h]
  refine ⟨hmain, ?_, ?_, ?_, ?_, ?_⟩ <;> rw [hmain] <;> rfl

/-- C9 witness: a `review`-style pass (not quiet, interactive) over an empty
container list prints the message and changes nothing. -/
theorem C9_no_pending_witness :
    process_snapshots false none none skipOracle [] =
      { state := initTriageState, printedNoSnapshots := true } :=
  (C9_no_pending false none none skipOracle [] rfl).1

/-- C2 counterexample: with both a manifest path and a workspace root given,
the resolver reports the configuration conflict even though the given
workspace root directly contains a manifest file — refuting the claimed
"if and only if the workspace-root does not contain a manifest". -/
theorem C2_counterexample :
    exFS.isFile (cargoManifest "root") = true ∧
    handle_target_args exFS exBothArgs = ResolveOutcome.configConflict :=
  ⟨rfl, rfl⟩

/-- C2 (amended): giving both a manifest path and a workspace root always
fails with the configuration conflict, regardless of the workspace root's
contents; the silent manifest precedence applies only when the workspace root
alone is given and directly contains a manifest file, and a lone workspace
root without a manifest stays workspace-scoped. -/
theorem C2_resolver (fs : FS) (t : TargetArgs) :
    (∀ root manifest, t.workspace_root = some root →
      t.manifest_path = some manifest →
      handle_target_args fs t = ResolveOutcome.configConflict) ∧
    (∀ root, t.workspace_root = some root → t.manifest_path = none →
      fs.isFile (cargoManifest root) = true →
      handle_target_args fs t =
        ResolveOutcome.packageScoped (some (cargoManifest root))) ∧
    (∀ root, t.workspace_root = some root → t.manifest_path = none →
      fs.isFile (cargoManifest root) = false →
      handle_target_args fs t = ResolveOutcome.workspaceScoped root) := by
  refine ⟨?_, ?_, ?_⟩
  · intro root manifest hr hm
    simp [handle_target_args, hr, hm]
  · intro root hr hm hfile
    simp [handle_target_args, hr, hm, hfile]
  · intro root hr hm hfile
    simp [handle_target_args, hr, hm, hfile]

/-- C2 witness: a lone workspace root that directly contains a manifest is
silently reinterpreted as that manifest path. -/
theorem C2_resolver_witness :
    handle_target_args exFS exRootArgs =
      ResolveOutcome.packageScoped (some (cargoManifest "root")) :=
  (C2_resolver exFS exRootArgs).2.1 "root" rfl rfl (by decide)

/-- C3 counterexample: with the configured extension list `["newsnap"]`, the
unreferenced file `x.newsnap` matches the spec-worded deletion predicate but
the code's collection loop does not delete it — the code keys deletion on the
literal `".snap"` suffix, not on the configured snapshot extensions. -/
theorem C3_counterexample :
    claimDeletes ["newsnap"] [] exWalkFile = true ∧
    collectorDeletes [] exWalkFile = false := by
  constructor
  · decide
  · decide

/-- C3 (amended): a file visited by the deletion walk is deleted iff its name
ends with the literal `".snap"` suffix and it canonicalizes to a path absent
from the referenced set; a file whose canonical path is in the referenced set
is never deleted; and the walk's filter skips a `target`-named directory whose
canonicalized parent is a known root, as well as a directory outside the known
roots that contains its own manifest. -/
theorem C3_collector (referenced : List String) (f : WalkFile)
    (roots : List String) (e : DirEntry) :
    (collectorDeletes referenced f = true ↔
      strEndsWith f.name ".snap" = true ∧
      ∃ p, f.canonical = some p ∧ referenced.contains p = false) ∧
    (∀ p, f.canonical = some p → referenced.contains p = true →
      collectorDeletes referenced f = false) ∧
    (∀ c, e.isDir = true → e.canonical = some c →
      e.fileName = some "target" → roots.contains e.canonicalParent = true →
      deletionFilter roots e = false) ∧
    (∀ c, e.isDir = true → e.canonical = some c →
      (e.fileName == some "target" && roots.contains e.canonicalParent)
        = false →
      roots.contains c = false → e.hasManifest = true →
      deletionFilter roots e = false) := by
  refine ⟨?_, ?_, ?_, ?_⟩
  · cases hc : f.canonical <;> simp [collectorDeletes, hc]
  · intro p hp hcon
    simp [collectorDeletes, hp, hcon]
    intro _
    simpa using hcon
  · intro c hd hc hf hp
    simp [deletionFilter, hd, hc, hf, hp]
    intro h
    exact absurd (by simpa using hp) h
  · intro c hd hc hg hroots hman
    simp [deletionFilter, hd, hc, hg, hroots, hman]
    intro _
    simpa using hroots

/-- C3 witness: a referenced snapshot file is not deleted, and a `target`
directory directly under a known root is excluded from the walk. -/
theorem C3_collector_witness :
    collectorDeletes ["/ws/a.snap"] refWalkFile = false ∧
    deletionFilter ["/ws"] exDirEntry = false :=
  ⟨(C3_collector ["/ws/a.snap"] refWalkFile ["/ws"] exDirEntry).2.1
      "/ws/a.snap" rfl (by decide),
   (C3_collector ["/ws/a.snap"] refWalkFile ["/ws"] exDirEntry).2.2.1
      "/ws/target" rfl rfl rfl (by decide)⟩

/-- C4 counterexample: in a bulk-Accept pass over three containers where the
second container's commit fails, the pass aborts: only the first container is
committed, and the third container's entry is never decided or committed —
refuting the claim that a commit failure does not abort the remaining
entries of the pass. -/
theorem C4_counterexample :
    (process_snapshots false none (some Operation.Accept) skipOracle
        [cA, cB, cC]).state.aborted = true ∧
    (process_snapshots false none (some Operation.Accept) skipOracle
        [cA, cB, cC]).state.committed = ["a"] ∧
    ((process_snapshots false none (some Operation.Accept) skipOracle
        [cA, cB, cC]).state.committed.contains "c") = false ∧
    (process_snapshots false none (some Operation.Accept) skipOracle
        [cA, cB, cC]).state.accepted = ["sa", "sb"] := by
  refine ⟨rfl, rfl, ?_, rfl⟩
  decide

/-- C4 (amended): a failure committing one container aborts the remainder of
the triage pass: the failing container's entries keep their in-memory
decisions but the containers after it are never processed or committed, while
containers committed before the failure remain committed (the pass appends
each successfully committed container and continues). -/
theorem C4_commit_abort (filter : Option (List String))
    (bulk : Option Operation) (oracle : Nat → Operation) (st : TriageState)
    (c : SnapshotContainer) (rest : List SnapshotContainer)
    (h : c.commitOk = false) :
    runContainers filter bulk oracle (c :: rest) st =
      { runContainer filter bulk oracle st c with aborted := true } ∧
    (runContainers filter bulk oracle (c :: rest) st).committed =
      (runContainer filter bulk oracle st c).committed ∧
    (∀ c2 rest2 st2, c2.commitOk = true →
      runContainers filter bulk oracle (c2 :: rest2) st2 =
        runContainers filter bulk oracle rest2
          { runContainer filter bulk oracle st2 c2 with
            committed := (runContainer filter bulk oracle st2 c2).committed
              ++ [c2.target_file] }) := by
  refine ⟨?_, ?_, ?_⟩
  · simp [runContainers, h]
  · simp [runContainers, h]
  · intro c2 rest2 st2 h2
    simp [runContainers, h2]

/-- C4 witness: the failing container `cB` at the head of a pass drops the
rest of the pass. -/
theorem C4_commit_abort_witness :
    runContainers none (some Operation.Accept) skipOracle [cB, cC]
        initTriageState =
      { runContainer none (some Operation.Accept) skipOracle initTriageState
          cB with aborted := true } :=
  (C4_commit_abort none (some Operation.Accept) skipOracle initTriageState
      cB [cC] rfl).1

/-- C6 counterexample: with one passthrough argument the constructed command
line is `test --no-fail-fast --color auto --test-threads=1 -- -q`: the
literal separator `--` comes *after* the user-supplied passthrough argument,
refuting the claim that it is appended before them. -/
theorem C6_counterexample :
    buildTestArgs exCargoCmd "auto" =
      ["test", "--no-fail-fast", "--color", "auto", "--test-threads=1",
       "--", "-q"] ∧
    (buildTestArgs exCargoCmd "auto").drop 4 =
      ["--test-threads=1", "--", "-q"] := by
  constructor
  · decide
  · decide

/-- C6 (amended): the user-supplied passthrough arguments are appended after
the fixed flags (the pushes up to and including `--color`), and the literal
separator argument followed by the quiet flag for the underlying runner is
appended after the passthrough arguments: they are the last two arguments of
the constructed command line. -/
theorem C6_separator (cmd : TestCommand) (color : String) :
    buildTestArgs cmd color =
      buildTestArgsPre cmd color ++ cmd.cargo_options ++ ["--", "-q"] ∧
    (buildTestArgs cmd color).drop
        ((buildTestArgsPre cmd color ++ cmd.cargo_options).length) =
      ["--", "-q"] := by
  have h1 : buildTestArgs cmd color =
      (buildTestArgsPre cmd color ++ cmd.cargo_options) ++ ["--", "-q"] := by
    simp [buildTestArgs, buildTestArgsPre, List.append_assoc]
  constructor
  · simpa [List.append_assoc] using h1
  · rw [h1, List.drop_left]

/-- The reconciliation only touches the review, accept and accept-unseen
flags; in particular `keep_pending` survives it. -/
lemma reconcile_preserves_keep_pending (env : Option String)
    (cmd0 cmd : TestCommand) (h : reconcileUpdate env cmd0 = Except.ok cmd) :
    cmd.keep_pending = cmd0.keep_pending := by
  cases env with
  | none =>
    simp [reconcileUpdate] at h
    rw [← h]
  | some s =>
    simp only [reconcileUpdate] at h
    split_ifs at h
    all_goals
      first
      | exact Except.noConfusion h
      | (simp only [Except.ok.injEq] at h
         rw [← h])

/-- Field values common to both branches of `finishRun`. -/
lemma finishRun_fields (cmd : TestCommand) (w : TestWorld)
    (oracle : Nat → Operation) (preRun : Option PassRecord) (gc : Bool)
    (del : List WalkFile) :
    (finishRun cmd w oracle preRun gc del).preRunPass = preRun ∧
    (finishRun cmd w oracle preRun gc del).spawned = true ∧
    (finishRun cmd w oracle preRun gc del).panicked = false ∧
    (finishRun cmd w oracle preRun gc del).gcRan = gc ∧
    (finishRun cmd w oracle preRun gc del).deletedFiles = del ∧
    (finishRun cmd w oracle preRun gc del).quietExitCode = none ∧
    (finishRun cmd w oracle preRun gc del).triageAborted = false := by
  unfold finishRun
  split <;> exact ⟨rfl, rfl, rfl, rfl, rfl, rfl, rfl⟩

/-- Every branch of the run body records the pre-run pass. -/
lemma afterReconcile_preRunPass (cmd : TestCommand) (w : TestWorld)
    (oracle : Nat → Operation) :
    (afterReconcile cmd w oracle).preRunPass = preRunRecord cmd w oracle := by
  unfold afterReconcile
  split
  · rfl
  · split
    · rfl
    · split
      · split
        · rfl
        · exact (finishRun_fields _ _ _ _ _ _).1
      · exact (finishRun_fields _ _ _ _ _ _).1

/-- C8: unless `keep_pending` is requested, `test_run` performs a quiet,
unfiltered bulk-Reject triage pass over the same target scope before spawning
the child (a pre-run failure prevents the spawn); with `keep_pending` no such
pass occurs. -/
theorem C8_prerun_reject (cmd0 : TestCommand) (w : TestWorld)
    (oracle : Nat → Operation) (cmd : TestCommand)
    (h : reconcileUpdate w.instaUpdate cmd0 = Except.ok cmd) :
    cmd.keep_pending = cmd0.keep_pending ∧
    (test_run cmd0 w oracle).preRunPass = preRunRecord cmd w oracle ∧
    (cmd0.keep_pending = true → preRunRecord cmd w oracle = none) ∧
    (cmd0.keep_pending = false →
      preRunRecord cmd w oracle =
        some { quiet := true, filter := none, bulk := some Operation.Reject,
               result := process_snapshots true none (some Operation.Reject)
                           oracle w.preContainers }) ∧
    (preRunAborted cmd w oracle = true →
      (test_run cmd0 w oracle).spawned = false) := by
  have hkp := reconcile_preserves_keep_pending w.instaUpdate cmd0 cmd h
  have htr : test_run cmd0 w oracle = afterReconcile cmd w oracle := by
    simp [test_run, h]
  refine ⟨hkp, ?_, ?_, ?_, ?_⟩
  · rw [htr]
    exact afterReconcile_preRunPass cmd w oracle
  · intro hk
    simp [preRunRecord, hkp, hk]
  · intro hk
    simp [preRunRecord, hkp, hk]
  · intro ha
    rw [htr]
    unfold afterReconcile
    simp [ha, emptyTrace]

/-- C8 witness: with default flags (no `keep_pending`) the pre-run quiet
bulk-Reject pass is recorded. -/
theorem C8_prerun_reject_witness :
    (test_run defaultTestCommand emptyWorld skipOracle).preRunPass =
      some { quiet := true, filter := none, bulk := some Operation.Reject,
             result := process_snapshots true none (some Operation.Reject)
                         skipOracle emptyWorld.preContainers } := by
  have hthm := C8_prerun_reject defaultTestCommand emptyWorld skipOracle
      defaultTestCommand rfl
  rw [hthm.2.1]
  exact hthm.2.2.2.1 rfl

/-- C1 counterexample: the child exits with code 3 while `--review` was
requested; the warning is recorded and no review pass occurs, but the overall
quiet exit carries code 1, not the child's code 3 — refuting the claimed
"exit code is the child's exit code". -/
theorem C1_counterexample :
    exWorldC1.childExit = 3 ∧
    (test_run exCmdC1 exWorldC1 skipOracle).quietExitCode = some 1 ∧
    ¬ (test_run exCmdC1 exWorldC1 skipOracle).quietExitCode = some 3 ∧
    (test_run exCmdC1 exWorldC1 skipOracle).warnedSkipReview = true ∧
    (test_run exCmdC1 exWorldC1 skipOracle).postPass = none := by
  refine ⟨rfl, rfl, ?_, rfl, rfl⟩
  decide

/-- C1 (amended): when the child test process exits non-zero while review or
accept was requested, a warning is recorded, no review/accept pass and no
collection occur, and the command fails with the distinguished quiet exit of
fixed code 1, regardless of the child's exit code. -/
theorem C1_child_failure (cmd0 : TestCommand) (w : TestWorld)
    (oracle : Nat → Operation) (cmd : TestCommand)
    (h : reconcileUpdate w.instaUpdate cmd0 = Except.ok cmd)
    (ha : preRunAborted cmd w oracle = false)
    (hc : w.childExit ≠ 0) :
    test_run cmd0 w oracle =
      { emptyTrace with
        preRunPass := preRunRecord cmd w oracle, spawned := true,
        warnedSkipReview := cmd.review,
        warnedNotAccepted := cmd.accept && !cmd.review,
        quietExitCode := some 1 } := by
  have htr : test_run cmd0 w oracle = afterReconcile cmd w oracle := by
    simp [test_run, h]
  rw [htr]
  unfold afterReconcile
  simp [ha, hc]

/-- C1 witness: child exit code 3 under `--review` yields the warning, no
post-run pass and quiet exit code 1. -/
theorem C1_child_failure_witness :
    test_run exCmdC1 exWorldC1 skipOracle =
      { emptyTrace with
        preRunPass := preRunRecord exCmdC1 exWorldC1 skipOracle,
        spawned := true, warnedSkipReview := exCmdC1.review,
        warnedNotAccepted := exCmdC1.accept && !exCmdC1.review,
        quietExitCode := some 1 } :=
  C1_child_failure exCmdC1 exWorldC1 skipOracle exCmdC1 rfl rfl (by decide)

/-- C10: when unreferenced-snapshot deletion was requested and the child
succeeds, the orchestrator unconditionally unwraps the read of the temporary
reference-tracking file: a missing file makes the run panic (nothing further
happens), so the collection path presupposes the file exists — in which case
no panic occurs and the collection runs. -/
theorem C10_ref_file_unwrap (cmd0 : TestCommand) (w : TestWorld)
    (oracle : Nat → Operation) (cmd : TestCommand)
    (h : reconcileUpdate w.instaUpdate cmd0 = Except.ok cmd)
    (ha : preRunAborted cmd w oracle = false)
    (hc : w.childExit = 0)
    (hd : cmd.delete_unreferenced_snapshots = true) :
    (w.refFile = none →
      test_run cmd0 w oracle =
        { emptyTrace with
          preRunPass := preRunRecord cmd w oracle,
          spawned := true, panicked := true }) ∧
    (∀ refs, w.refFile = some refs →
      (test_run cmd0 w oracle).panicked = false ∧
      (test_run cmd0 w oracle).gcRan = true ∧
      (test_run cmd0 w oracle).deletedFiles =
        (if w.resolveOk then w.walkFiles.filter (collectorDeletes refs)
         else [])) := by
  have htr : test_run cmd0 w oracle = afterReconcile cmd w oracle := by
    simp [test_run, h]
  constructor
  · intro hr
    rw [htr]
    unfold afterReconcile
    simp [ha, hc, hd, hr]
  · intro refs hr
    rw [htr]
    unfold afterReconcile
    simp only [ha, hc, hd, hr]
    simp only [ne_eq, not_true_eq_false, if_false, Bool.false_eq_true,
      if_true]
    refine ⟨?_, ?_, ?_⟩
    · exact (finishRun_fields _ _ _ _ _ _).2.2.1
    · exact (finishRun_fields _ _ _ _ _ _).2.2.2.1
    · exact (finishRun_fields _ _ _ _ _ _).2.2.2.2.1

/-- C10 witness: deletion requested, child succeeded, reference file missing:
the run panics after spawning and nothing further happens. -/
theorem C10_ref_file_unwrap_witness :
    test_run exCmdC10 emptyWorld skipOracle =
      { emptyTrace with
        preRunPass := preRunRecord exCmdC10 emptyWorld skipOracle,
        spawned := true, panicked := true } :=
  (C10_ref_file_unwrap exCmdC10 emptyWorld skipOracle exCmdC10 rfl rfl rfl
      rfl).1 rfl

end Insta
